import Mathlib

/-!
Verification of the AWS Bedrock Runtime provider adapter
(`src/api/providers/bedrock-runtime.ts`): the request builder, the content
formatter, the model-selection predicates, and the streaming response
decoder of `createMessage`, shallowly embedded as executable Lean
definitions, followed by theorems settling the specification claims.
-/

namespace BedrockRuntime

/-- JavaScript `x || 0` on an optional numeric field: an absent field and
the value `0` both collapse to `0`. -/
def orZero : Option Nat → Nat
  | some n => n
  | none => 0

/-- JavaScript `s || d` on strings: the empty string is falsy and is
replaced by the default. -/
def jsStringOr (s d : String) : String :=
  if s = "" then d else s

/-- ASCII lowering of a string, character by character, embedding
JavaScript `String.prototype.toLowerCase` on the identifiers in play. -/
def jsToLower (s : String) : String :=
  ⟨s.data.map Char.toLower⟩

/-- Whether `needle` occurs at the start of `hay`. -/
def leadsWith : List Char → List Char → Bool
  | [], _ => true
  | _ :: _, [] => false
  | a :: as, b :: bs => a == b && leadsWith as bs

/-- Whether `needle` occurs contiguously anywhere in `hay`, embedding
JavaScript `String.prototype.includes`. -/
def containsSeq (needle : List Char) : List Char → Bool
  | [] => needle.isEmpty
  | b :: bs => leadsWith needle (b :: bs) || containsSeq needle bs

/-- `isNovaModel` from the source: the lower-cased model id contains the
substring `nova`. -/
def isNovaModel (modelId : String) : Bool :=
  containsSeq "nova".data (jsToLower modelId).data

/-- Modelled from the spec: the catalog's configured default model id
(`bedrockDefaultModelId` lives in `shared/api`, outside the core, which the
spec scopes out as a read-only catalog); the spec presents the generic
non-Nova family through the lower-case id `anthropic.claude-3`. -/
def bedrockDefaultModelId : String := "anthropic.claude-3"

/-- The slice of `ApiHandlerOptions` that the embedded operations read. -/
structure ApiHandlerOptions where
  apiModelId : Option String
  useBedrockRuntime : Option Bool
deriving DecidableEq

/-- `shouldUseRuntime` from the source: lower-case the requested id,
falling back to the default id when the option is absent or empty (the
JavaScript `||`), then test for the `nova` substring or the explicit
opt-in flag (`=== true`). -/
def shouldUseRuntime (o : ApiHandlerOptions) : Bool :=
  containsSeq "nova".data
      (jsStringOr ((o.apiModelId.map jsToLower).getD "") bedrockDefaultModelId).data
    || (o.useBedrockRuntime == some true)

/-- Written from the spec's words, for comparison with `shouldUseRuntime`:
true iff the resolved/requested id (requested when present, otherwise the
default), compared case-insensitively, identifies the Nova family, or the
explicit flag is set. -/
def shouldUseThisAdapterSpec (o : ApiHandlerOptions) : Bool :=
  isNovaModel (o.apiModelId.getD bedrockDefaultModelId)
    || (o.useBedrockRuntime == some true)

/-- A structured content block, as `formatContent` distinguishes them:
the `other` constructor stands for every unrecognized tag. -/
inductive ContentBlock where
  | text (t : String) : ContentBlock
  | image (source : String) : ContentBlock
  | tool_use (nm : String) : ContentBlock
  | other : ContentBlock
deriving DecidableEq

/-- The per-block fragment of `formatContent`'s `.map` callback. -/
def formatBlock : ContentBlock → String
  | .text t => t
  | .image source => "[Image: " ++ source ++ "]"
  | .tool_use nm => "[Tool: " ++ nm ++ "]"
  | .other => "[Unknown Block]"

/-- `formatContent` from the source: map each block to its fragment and
join with a single space (`.join(' ')`). -/
def formatContent (content : List ContentBlock) : String :=
  String.intercalate " " (content.map formatBlock)

/-- Message content is either a plain string or a block list, mirroring
`string | ContentBlock[]`. -/
inductive MessageContent where
  | str (s : String) : MessageContent
  | blocks (bs : List ContentBlock) : MessageContent
deriving DecidableEq

/-- An input conversation message. -/
structure Message where
  role : String
  content : MessageContent
deriving DecidableEq

/-- The model-capability record fields the builder reads. -/
structure ModelInfo where
  maxTokens : Option Nat
  supportsPromptCache : Bool
deriving DecidableEq

/-- The `prompt_routing` sub-object of the cache-control extension. -/
structure PromptRouting where
  enable_routing : Bool
  temperature : Nat
deriving DecidableEq

/-- The Nova cache-control extension block. -/
structure CacheControl where
  enable_prompt_caching : Bool
  prompt_routing : PromptRouting
deriving DecidableEq

/-- The Nova response-optimization extension block. -/
structure NovaConfig where
  optimized_response : Bool
  context_adaptation : Bool
deriving DecidableEq

/-- One entry of the request's flattened message list. -/
structure RequestMessage where
  role : String
  content : String
deriving DecidableEq

/-- The JSON body handed to the transport. Optional fields model presence
in the serialized JSON: the source sets `cache_control: undefined` on a
Nova model without cache support, and `JSON.stringify` drops
`undefined`-valued keys, so `none` here is "field absent on the wire". -/
structure BackendRequest where
  anthropic_version : String
  messages : List RequestMessage
  system : String
  max_tokens : Nat
  temperature : Nat
  cache_control : Option CacheControl
  nova_config : Option NovaConfig
deriving DecidableEq

/-- JavaScript `n || d` on an optional numeric field: absent and `0` both
fall back to the default. -/
def jsNatOr (o : Option Nat) (d : Nat) : Nat :=
  match o with
  | some n => if n = 0 then d else n
  | none => d

/-- The request construction of `createMessage` (lines 33-59): protocol
tag, flattened messages, system prompt, `maxTokens || 8192`, temperature
0, and the Nova-only extension blocks. -/
def buildRequest (systemPrompt : String) (messages : List Message)
    (modelId : String) (info : ModelInfo) : BackendRequest :=
  { anthropic_version := "bedrock-2024-02-20"
    messages := messages.map fun m =>
      { role := m.role
        content := match m.content with
          | .str s => s
          | .blocks bs => formatContent bs }
    system := systemPrompt
    max_tokens := jsNatOr info.maxTokens 8192
    temperature := 0
    cache_control :=
      if isNovaModel modelId then
        if info.supportsPromptCache then
          some { enable_prompt_caching := true
                 prompt_routing := { enable_routing := true, temperature := 0 } }
        else none
      else none
    nova_config :=
      if isNovaModel modelId then
        some { optimized_response := true, context_adaptation := true }
      else none }

/-- The `usage` record a frame may carry; each token field may be absent. -/
structure UsageRec where
  input_tokens : Option Nat
  output_tokens : Option Nat
deriving DecidableEq

/-- A parsed stream frame, keyed by its `type` discriminator.
`messageStart none` covers a missing `message` or missing `usage`;
`contentBlockDelta none` a missing `delta` or missing `text`;
`messageDelta none` a missing `usage` or missing `output_tokens`;
`other` an unrecognized tag; `noBytes` a chunk without `chunk.bytes`. -/
inductive Frame where
  | messageStart (usage : Option UsageRec) : Frame
  | contentBlockDelta (text : Option String) : Frame
  | messageDelta (outputTokens : Option Nat) : Frame
  | messageStop : Frame
  | other : Frame
  | noBytes : Frame
deriving DecidableEq

/-- A normalized output event of the adapter stream. -/
inductive OutputEvent where
  | text (t : String) : OutputEvent
  | usage (inputTokens outputTokens : Nat) : OutputEvent
deriving DecidableEq

/-- The decoder's per-consumption mutable state. -/
structure DecoderState where
  hasStarted : Bool
  inputTokens : Nat
  outputTokens : Nat
deriving DecidableEq

/-- The decoder state at the start of a consumption. -/
def initState : DecoderState := ⟨false, 0, 0⟩

/-- One iteration of the `for await` switch: the next state and the events
yielded for this frame. JavaScript truthiness governs each guard:
`message?.usage` is truthy when the object is present,
`delta?.text` when the text is present and non-empty,
`usage?.output_tokens` when present and non-zero. -/
def step (s : DecoderState) : Frame → DecoderState × List OutputEvent
  | .messageStart (some u) =>
      (⟨s.hasStarted, orZero u.input_tokens, orZero u.output_tokens⟩,
       [.usage (orZero u.input_tokens) (orZero u.output_tokens)])
  | .messageStart none => (s, [])
  | .contentBlockDelta (some t) =>
      if t = "" then (s, [])
      else (⟨true, s.inputTokens, s.outputTokens⟩, [.text t])
  | .contentBlockDelta none => (s, [])
  | .messageDelta (some n) =>
      if n = 0 then (s, [])
      else (⟨s.hasStarted, s.inputTokens, n⟩, [.usage s.inputTokens n])
  | .messageDelta none => (s, [])
  | .messageStop => (s, [.usage s.inputTokens s.outputTokens])
  | .other => (s, [])
  | .noBytes => (s, [])

/-- Run the decoder loop over a frame list, collecting yielded events in
order. -/
def runFrames : DecoderState → List Frame → DecoderState × List OutputEvent
  | s, [] => (s, [])
  | s, f :: fs =>
      ((runFrames (step s f).1 fs).1, (step s f).2 ++ (runFrames (step s f).1 fs).2)

/-- The successive decoder states along a frame list, starting state
included. -/
def stateTrace (s : DecoderState) : List Frame → List DecoderState
  | [] => [s]
  | f :: fs => s :: stateTrace (step s f).1 fs

/-- Whether processing this frame sets `hasStarted`: a delta with
non-empty text. -/
def setsStarted : Frame → Bool
  | .contentBlockDelta (some t) => !(t == "")
  | _ => false

/-- Whether the event is a `TextDelta`. -/
def isTextEvent : OutputEvent → Bool
  | .text _ => true
  | .usage _ _ => false

/-- No frame of the list carries delta text. -/
def noTextBearing (fs : List Frame) : Bool :=
  fs.all fun f => !setsStarted f

/-- No event of the list is a `TextDelta`. -/
def noTextEvents (evs : List OutputEvent) : Bool :=
  evs.all fun e => !isTextEvent e

/-- Every `content_block_delta` frame of the list carries exactly the
empty text. -/
def allDeltasEmpty (fs : List Frame) : Bool :=
  fs.all fun f =>
    match f with
    | .contentBlockDelta t => t == some ""
    | _ => true

/-- The message of the error thrown when the transport returns no body. -/
def noResponseStreamMsg : String := "No response stream available"

/-- The message of the error thrown when no text delta was decoded. -/
def noContentMsg : String := "No content was generated by the model"

/-- The synthetic error text yielded by the catch block:
`Error: ${error.message}`. -/
def errorText (m : String) : String := "Error: " ++ m

/-- How one call to `createMessage` terminates: normally, or by raising an
error with the given message. -/
inductive Outcome where
  | ok : Outcome
  | error (msg : String) : Outcome
deriving DecidableEq

/-- What the transport hands back: no response body at all, or a stream
that yields `frames` and then either ends normally (`failure = none`) or
raises an iteration error with the given message. -/
inductive StreamInput where
  | noStream : StreamInput
  | stream (frames : List Frame) (failure : Option String) : StreamInput
deriving DecidableEq

/-- The observable behavior of `createMessage`'s try/catch (lines 68-145):
the ordered list of yielded events and the terminal outcome. The missing
body and the empty-stream condition both throw inside the `try`, so the
catch block appends the synthetic `Error:` text event and a zeroed usage
event before re-raising, exactly as it does for an iteration failure. -/
def createMessage : StreamInput → List OutputEvent × Outcome
  | .noStream =>
      ([.text (errorText noResponseStreamMsg), .usage 0 0],
       .error noResponseStreamMsg)
  | .stream frames (some m) =>
      ((runFrames initState frames).2 ++ [.text (errorText m), .usage 0 0],
       .error m)
  | .stream frames none =>
      if (runFrames initState frames).1.hasStarted then
        ((runFrames initState frames).2, .ok)
      else
        ((runFrames initState frames).2 ++
          [.text (errorText noContentMsg), .usage 0 0],
         .error noContentMsg)

/-- Componentwise order on the two token counters of the decoder state. -/
abbrev monoStep (a b : DecoderState) : Prop :=
  a.inputTokens ≤ b.inputTokens ∧ a.outputTokens ≤ b.outputTokens

/-- The frame's reported counter values, when present, do not undercut the
current state's counters. -/
def frameRespects (s : DecoderState) : Frame → Bool
  | .messageStart (some u) =>
      decide (s.inputTokens ≤ orZero u.input_tokens)
        && decide (s.outputTokens ≤ orZero u.output_tokens)
  | .messageDelta (some n) => decide (n = 0) || decide (s.outputTokens ≤ n)
  | _ => true

/-- `frameRespects` holds at every step along the frame list. -/
def respectsAlong : DecoderState → List Frame → Bool
  | _, [] => true
  | s, f :: fs => frameRespects s f && respectsAlong (step s f).1 fs

/-- Executable check that consecutive states of a list are ordered by
`monoStep`. -/
def monoChain : List DecoderState → Bool
  | [] => true
  | [_] => true
  | a :: b :: rest =>
      (decide (a.inputTokens ≤ b.inputTokens)
        && decide (a.outputTokens ≤ b.outputTokens))
        && monoChain (b :: rest)

theorem monoChain_iff_chain (l : List DecoderState) :
    monoChain l = true ↔ List.Chain' monoStep l := by
  induction l with
  | nil => simp [monoChain]
  | cons a t ih =>
    cases t with
    | nil => simp [monoChain]
    | cons b rest =>
      simp only [monoChain, Bool.and_eq_true, decide_eq_true_iff,
        List.chain'_cons] at ih ⊢
      rw [ih]

theorem step_keeps_hasStarted (s : DecoderState) (f : Frame)
    (h : setsStarted f = false) :
    (step s f).1.hasStarted = s.hasStarted ∧ noTextEvents (step s f).2 = true := by
  cases f with
  | messageStart u => cases u <;> simp [step, noTextEvents, isTextEvent]
  | contentBlockDelta t =>
    cases t with
    | none => simp [step, noTextEvents]
    | some t0 =>
      simp only [setsStarted, Bool.not_eq_false', beq_iff_eq] at h
      simp [step, h, noTextEvents]
  | messageDelta n =>
    cases n with
    | none => simp [step, noTextEvents]
    | some n0 =>
      by_cases hn : n0 = 0 <;> simp [step, hn, noTextEvents, isTextEvent]
  | messageStop => simp [step, noTextEvents, isTextEvent]
  | other => simp [step, noTextEvents]
  | noBytes => simp [step, noTextEvents]

theorem runFrames_no_text (fs : List Frame) : ∀ (s : DecoderState),
    noTextBearing fs = true →
    (runFrames s fs).1.hasStarted = s.hasStarted
      ∧ noTextEvents (runFrames s fs).2 = true := by
  induction fs with
  | nil => intro s _; exact ⟨rfl, rfl⟩
  | cons f rest ih =>
    intro s h
    simp only [noTextBearing, List.all_cons, Bool.and_eq_true] at h
    have hf := step_keeps_hasStarted s f (by simpa using h.1)
    have hr := ih (step s f).1 (by simpa [noTextBearing] using h.2)
    refine ⟨?_, ?_⟩
    · show (runFrames (step s f).1 rest).1.hasStarted = s.hasStarted
      rw [hr.1, hf.1]
    · show noTextEvents ((step s f).2 ++ (runFrames (step s f).1 rest).2) = true
      simp only [noTextEvents, List.all_append, Bool.and_eq_true]
      exact ⟨by simpa [noTextEvents] using hf.2, by simpa [noTextEvents] using hr.2⟩

theorem step_mono (s : DecoderState) (f : Frame)
    (h : frameRespects s f = true) : monoStep s (step s f).1 := by
  cases f with
  | messageStart u =>
    cases u with
    | none => exact ⟨Nat.le_refl _, Nat.le_refl _⟩
    | some u0 =>
      simp only [frameRespects, Bool.and_eq_true, decide_eq_true_iff] at h
      exact h
  | contentBlockDelta t =>
    cases t with
    | none => exact ⟨Nat.le_refl _, Nat.le_refl _⟩
    | some t0 =>
      by_cases ht : t0 = ""
      · simp only [step, if_pos ht]
        exact ⟨Nat.le_refl _, Nat.le_refl _⟩
      · simp only [step, if_neg ht]
        exact ⟨Nat.le_refl _, Nat.le_refl _⟩
  | messageDelta n =>
    cases n with
    | none => exact ⟨Nat.le_refl _, Nat.le_refl _⟩
    | some n0 =>
      by_cases hn : n0 = 0
      · simp only [step, if_pos hn]
        exact ⟨Nat.le_refl _, Nat.le_refl _⟩
      · simp only [frameRespects, Bool.or_eq_true, decide_eq_true_iff] at h
        simp only [step, if_neg hn]
        exact ⟨Nat.le_refl _, h.resolve_left hn⟩
  | messageStop => exact ⟨Nat.le_refl _, Nat.le_refl _⟩
  | other => exact ⟨Nat.le_refl _, Nat.le_refl _⟩
  | noBytes => exact ⟨Nat.le_refl _, Nat.le_refl _⟩

theorem respects_chain (fs : List Frame) : ∀ (s : DecoderState),
    respectsAlong s fs = true → List.Chain' monoStep (stateTrace s fs) := by
  induction fs with
  | nil => intro s _; simp [stateTrace]
  | cons f rest ih =>
    intro s h
    simp only [respectsAlong, Bool.and_eq_true] at h
    show List.Chain' monoStep (s :: stateTrace (step s f).1 rest)
    refine List.chain'_cons'.mpr ⟨?_, ih _ h.2⟩
    intro b hb
    have hhead : (stateTrace (step s f).1 rest).head? = some (step s f).1 := by
      cases rest <;> rfl
    rw [hhead, Option.mem_some_iff] at hb
    rw [← hb]
    exact step_mono s f h.1

theorem deltas_empty_no_text (fs : List Frame)
    (h : allDeltasEmpty fs = true) : noTextBearing fs = true := by
  simp only [allDeltasEmpty, List.all_eq_true] at h
  simp only [noTextBearing, List.all_eq_true]
  intro f hf
  have h2 := h f hf
  cases f with
  | contentBlockDelta t =>
    cases t with
    | none => simp at h2
    | some t0 =>
      simp only [beq_iff_eq, Option.some.injEq] at h2
      simp [setsStarted, h2]
  | messageStart u => simp [setsStarted]
  | messageDelta n => simp [setsStarted]
  | messageStop => simp [setsStarted]
  | other => simp [setsStarted]
  | noBytes => simp [setsStarted]

/-- C1: feeding the decoder `message_start` with usage (10, 0), two text
deltas "Hel" and "lo", a `message_delta` with output count 2, and
`message_stop` yields exactly the five events Usage(10,0),
TextDelta("Hel"), TextDelta("lo"), Usage(10,2), Usage(10,2), in that
order, and terminates normally. -/
theorem c1_decode_five_events :
    createMessage (.stream
      [.messageStart (some ⟨some 10, some 0⟩),
       .contentBlockDelta (some "Hel"),
       .contentBlockDelta (some "lo"),
       .messageDelta (some 2),
       .messageStop] none)
    = ([.usage 10 0, .text "Hel", .text "lo", .usage 10 2, .usage 10 2], .ok) := by
  decide

/-- C2 counterexample: on the frame sequence `message_start` (usage 10, 0)
then `message_stop`, the call does fail with the NoContentGenerated
message, but a TextDelta event (the synthetic error text appended by the
catch block) is emitted before the failure surfaces, so the claim's
"before any text event is emitted" is false on the code. -/
theorem c2_counterexample :
    createMessage (.stream
        [.messageStart (some ⟨some 10, some 0⟩), .messageStop] none)
      = ([.usage 10 0, .usage 10 0, .text (errorText noContentMsg), .usage 0 0],
         .error noContentMsg)
    ∧ (createMessage (.stream
        [.messageStart (some ⟨some 10, some 0⟩), .messageStop] none)).1.any
        isTextEvent = true := by
  decide

/-- C2 amended: for every frame sequence with no text-bearing
`content_block_delta`, the decode fails with the NoContentGenerated error
after the stream is exhausted; the decoded portion of the emitted events
contains no text event, and the only TextDelta preceding the surfaced
failure is the synthetic error-text event (followed by a zeroed Usage
event) that the error path appends after the decoded Usage events. -/
theorem c2_no_content_error (fs : List Frame) (h : noTextBearing fs = true) :
    createMessage (.stream fs none)
      = ((runFrames initState fs).2
          ++ [.text (errorText noContentMsg), .usage 0 0], .error noContentMsg)
    ∧ noTextEvents (runFrames initState fs).2 = true := by
  have hrf := runFrames_no_text fs initState h
  have hh : (runFrames initState fs).1.hasStarted = false := hrf.1
  exact ⟨by simp [createMessage, hh], hrf.2⟩

/-- C2 witness: the amended theorem applied to the concrete sequence
`message_start` (usage 10, 0) then `message_stop`. -/
theorem c2_no_content_error_witness :
    noTextBearing [.messageStart (some ⟨some 10, some 0⟩), .messageStop] = true
    ∧ (createMessage (.stream
          [.messageStart (some ⟨some 10, some 0⟩), .messageStop] none)
        = ((runFrames initState
              [.messageStart (some ⟨some 10, some 0⟩), .messageStop]).2
            ++ [.text (errorText noContentMsg), .usage 0 0], .error noContentMsg)
       ∧ noTextEvents (runFrames initState
            [.messageStart (some ⟨some 10, some 0⟩), .messageStop]).2 = true) :=
  ⟨by decide, c2_no_content_error _ (by decide)⟩

/-- C3 counterexample: when the transport returns no stream, the call does
not emit "no events whatsoever": the synthetic error TextDelta and the
zeroed Usage event precede the surfaced NoResponseStream failure. -/
theorem c3_counterexample :
    (createMessage .noStream).1 ≠ []
    ∧ (createMessage .noStream).2 = .error noResponseStreamMsg := by
  decide

/-- C3 amended: when the transport returns no response stream,
`createMessage` fails with the NoResponseStream error and no decoded
stream event is emitted, but the catch-all error path emits exactly one
synthetic error TextDelta and one Usage(0,0) event before re-raising. -/
theorem c3_no_stream :
    createMessage .noStream
      = ([.text (errorText noResponseStreamMsg), .usage 0 0],
         .error noResponseStreamMsg) := rfl

/-- C4: for every error raised while iterating the response stream, the
decoder emits (after whatever events the decoded frames produced) exactly
one TextDelta carrying the error description, then exactly one Usage
event with both counts zero, and then re-raises the same failure. -/
theorem c4_transport_failure (fs : List Frame) (m : String) :
    createMessage (.stream fs (some m))
      = ((runFrames initState fs).2 ++ [.text (errorText m), .usage 0 0],
         .error m) := rfl

/-- C5 counterexample: on the frame sequence `message_delta` (output 5)
then `message_delta` (output 2), the decoder-state counters are not
monotonically non-decreasing: `outputTokens` goes 0, 5, 2. -/
theorem c5_counterexample :
    ¬ List.Chain' monoStep
      (stateTrace initState [.messageDelta (some 5), .messageDelta (some 2)]) := by
  rw [← monoChain_iff_chain]
  decide

/-- C5 amended: within one stream consumption the counters hold the most
recent backend-reported value (overwrite, not a running sum) — a
`message_start` usage record overwrites both counters and a nonzero
`message_delta` count overwrites `outputTokens` — and the counters are
monotonically non-decreasing provided every usage-bearing frame reports
values that do not undercut the counters current when it is processed;
the code does not enforce this against a backend reporting a smaller
value. -/
theorem c5_last_reported_monotone (s s2 s3 : DecoderState) (fs : List Frame)
    (u : UsageRec) (n : Nat) (h : respectsAlong s fs = true) (hn : n ≠ 0) :
    List.Chain' monoStep (stateTrace s fs)
    ∧ (step s2 (.messageStart (some u))).1.inputTokens = orZero u.input_tokens
    ∧ (step s2 (.messageStart (some u))).1.outputTokens = orZero u.output_tokens
    ∧ (step s3 (.messageDelta (some n))).1.outputTokens = n := by
  refine ⟨respects_chain fs s h, rfl, rfl, ?_⟩
  simp [step, hn]

/-- C5 witness: the amended theorem applied to a concrete well-behaved
sequence and concrete overwrite inputs. -/
theorem c5_witness :
    respectsAlong initState
      [.messageStart (some ⟨some 10, some 0⟩), .messageDelta (some 2),
       .messageStop] = true
    ∧ (7 : Nat) ≠ 0
    ∧ (List.Chain' monoStep (stateTrace initState
          [.messageStart (some ⟨some 10, some 0⟩), .messageDelta (some 2),
           .messageStop])
       ∧ (step initState (.messageStart (some ⟨some 3, some 4⟩))).1.inputTokens
           = orZero (some 3)
       ∧ (step initState (.messageStart (some ⟨some 3, some 4⟩))).1.outputTokens
           = orZero (some 4)
       ∧ (step initState (.messageDelta (some 7))).1.outputTokens = 7) :=
  ⟨by decide, by decide,
   c5_last_reported_monotone initState initState initState _ ⟨some 3, some 4⟩ 7
     (by decide) (by decide)⟩

/-- C6 counterexample: a `message_delta` frame whose usage carries the
output-token count 0 produces no event and leaves the state unchanged
(here `outputTokens` stays 5), because `0` is falsy in the guard — the
claim's "including the value 0" is false on the code. -/
theorem c6_counterexample :
    (step ⟨false, 10, 5⟩ (.messageDelta (some 0))).2 = []
    ∧ (step ⟨false, 10, 5⟩ (.messageDelta (some 0))).1 = ⟨false, 10, 5⟩
    ∧ (5 : Nat) ≠ 0 := by
  decide

/-- C6 amended: for every `message_delta` frame whose usage carries a
nonzero output-token count, the decoder overwrites `outputTokens` with it
and emits a Usage event with the current counters; if the count is absent
or zero, no state change and no event occur. -/
theorem c6_message_delta (s : DecoderState) (n : Nat) (hn : n ≠ 0) :
    step s (.messageDelta (some n))
      = (⟨s.hasStarted, s.inputTokens, n⟩, [.usage s.inputTokens n])
    ∧ step s (.messageDelta none) = (s, [])
    ∧ step s (.messageDelta (some 0)) = (s, []) := by
  refine ⟨?_, rfl, rfl⟩
  simp [step, hn]

/-- C6 witness: the amended theorem applied at the state (false, 10, 5)
and count 2. -/
theorem c6_witness :
    (2 : Nat) ≠ 0
    ∧ (step ⟨false, 10, 5⟩ (.messageDelta (some 2))
        = (⟨false, 10, 2⟩, [.usage 10 2])
       ∧ step ⟨false, 10, 5⟩ (.messageDelta none) = (⟨false, 10, 5⟩, [])
       ∧ step ⟨false, 10, 5⟩ (.messageDelta (some 0)) = (⟨false, 10, 5⟩, [])) :=
  ⟨by decide, c6_message_delta ⟨false, 10, 5⟩ 2 (by decide)⟩

/-- C7: for a Nova-family model without prompt-cache support the built
request has no cache-control field (the serialized JSON drops the
`undefined` value), the Nova response-optimization block is present for
every Nova-family model regardless of cache support, and a non-Nova model
gets neither field. -/
theorem c7_nova_request_extensions (sys : String) (msgs : List Message)
    (modelId : String) (info : ModelInfo) :
    (isNovaModel modelId = true → info.supportsPromptCache = false →
      (buildRequest sys msgs modelId info).cache_control = none)
    ∧ (isNovaModel modelId = true →
      (buildRequest sys msgs modelId info).nova_config = some ⟨true, true⟩)
    ∧ (isNovaModel modelId = false →
      (buildRequest sys msgs modelId info).cache_control = none
      ∧ (buildRequest sys msgs modelId info).nova_config = none) := by
  refine ⟨fun h hc => ?_, fun h => ?_, fun h => ?_⟩
  · simp [buildRequest, h, hc]
  · simp [buildRequest, h]
  · simp [buildRequest, h]

/-- C7 witness: the theorem applied to the Nova id `amazon.nova-lite-v1`
with `supportsPromptCache = false` and to the non-Nova id
`anthropic.claude-3`. -/
theorem c7_witness :
    (buildRequest "sys" [] "amazon.nova-lite-v1" ⟨none, false⟩).cache_control
      = none
    ∧ (buildRequest "sys" [] "amazon.nova-lite-v1" ⟨none, false⟩).nova_config
      = some ⟨true, true⟩
    ∧ ((buildRequest "sys" [] "anthropic.claude-3" ⟨none, false⟩).cache_control
        = none
       ∧ (buildRequest "sys" [] "anthropic.claude-3" ⟨none, false⟩).nova_config
        = none) :=
  ⟨(c7_nova_request_extensions "sys" [] "amazon.nova-lite-v1" ⟨none, false⟩).1
     (by decide) rfl,
   (c7_nova_request_extensions "sys" [] "amazon.nova-lite-v1" ⟨none, false⟩).2.1
     (by decide),
   (c7_nova_request_extensions "sys" [] "anthropic.claude-3" ⟨none, false⟩).2.2
     (by decide)⟩

/-- C8: `formatContent` maps each block to exactly one fragment — text
verbatim, bracketed image placeholder with the source, bracketed tool
placeholder with the name, a fixed placeholder for any other tag — joins
them with a single space preserving order, never fails, and on the
concrete list [Text "hi", Image "s3://x", ToolUse "search", UnknownTag]
yields the expected string. -/
theorem c8_format_content (bs : List ContentBlock) (t source nm : String) :
    formatContent bs = String.intercalate " " (bs.map formatBlock)
    ∧ formatBlock (.text t) = t
    ∧ formatBlock (.image source) = "[Image: " ++ source ++ "]"
    ∧ formatBlock (.tool_use nm) = "[Tool: " ++ nm ++ "]"
    ∧ formatBlock .other = "[Unknown Block]"
    ∧ (bs.map formatBlock).length = bs.length
    ∧ formatContent [.text "hi", .image "s3://x", .tool_use "search", .other]
        = "hi [Image: s3://x] [Tool: search] [Unknown Block]" := by
  refine ⟨rfl, rfl, rfl, rfl, rfl, ?_, rfl⟩
  simp

/-- C9: the static predicate `shouldUseRuntime` returns true if and only
if the resolved/requested model id (the requested id when present,
otherwise the default), compared case-insensitively, contains the Nova
substring, or the explicit opt-in flag is set: it coincides pointwise
with the predicate written from the spec's words, and needs only the
options value, not an adapter instance. -/
theorem c9_should_use_runtime (o : ApiHandlerOptions) :
    shouldUseRuntime o = shouldUseThisAdapterSpec o := by
  obtain ⟨mid, flag⟩ := o
  cases mid with
  | none =>
    cases flag with
    | none => decide
    | some b => cases b <;> decide
  | some s =>
    show (containsSeq "nova".data
            (jsStringOr (jsToLower s) bedrockDefaultModelId).data
          || (flag == some true))
        = (containsSeq "nova".data (jsToLower s).data || (flag == some true))
    by_cases h : jsToLower s = ""
    · have e1 : jsStringOr (jsToLower s) bedrockDefaultModelId
          = bedrockDefaultModelId := by
        simp [jsStringOr, h]
      rw [e1, h,
        show containsSeq "nova".data bedrockDefaultModelId.data = false from
          by decide,
        show containsSeq "nova".data ("" : String).data = false from by decide]
    · simp only [jsStringOr, if_neg h]

/-- C10: a `content_block_delta` frame with empty delta text produces no
TextDelta event and does not set `hasStarted`; consequently every frame
sequence in which each `content_block_delta` carries only empty text fails
with the NoContentGenerated error even though delta frames were
received. -/
theorem c10_empty_text_delta (fs : List Frame) (s : DecoderState)
    (h : allDeltasEmpty fs = true) :
    step s (.contentBlockDelta (some "")) = (s, [])
    ∧ createMessage (.stream fs none)
        = ((runFrames initState fs).2
            ++ [.text (errorText noContentMsg), .usage 0 0],
           .error noContentMsg) := by
  refine ⟨rfl, ?_⟩
  have hb := deltas_empty_no_text fs h
  have hh : (runFrames initState fs).1.hasStarted = false :=
    (runFrames_no_text fs initState hb).1
  simp [createMessage, hh]

/-- C10 witness: the theorem applied to the sequence of one empty-text
delta frame followed by `message_stop`. -/
theorem c10_witness :
    allDeltasEmpty [.contentBlockDelta (some ""), .messageStop] = true
    ∧ (step initState (.contentBlockDelta (some "")) = (initState, [])
       ∧ createMessage
            (.stream [.contentBlockDelta (some ""), .messageStop] none)
          = ((runFrames initState
               [.contentBlockDelta (some ""), .messageStop]).2
              ++ [.text (errorText noContentMsg), .usage 0 0],
             .error noContentMsg)) :=
  ⟨by decide, c10_empty_text_delta _ initState (by decide)⟩

end BedrockRuntime
